import Mathlib

/-!
Shallow embedding of `src/tools/devicehub_tools.py` (Litmus MCP server,
DeviceHub tool layer): raw remote records, field normalization, identifier
resolution, filtering/sorting, and the tag mutation orchestration, together
with theorems checking the specification's claims about them.

Conventions of the embedding:
* Python values appearing in payload dictionaries are modelled by `Value`.
* `getattr(x, f, None)` collapses "attribute absent" and "attribute is None";
  such fields are modelled as `Option Value` (or `Option String` where the
  code only ever uses them as strings), with `none` meaning absent-or-null.
* `getattr(device, "metadata", "unknown")` distinguishes absence from null,
  so the `metadata` field is modelled three-valued by `RawAttr`.
* Python truthiness of optional string arguments (`if not x`) is modelled by
  `truthyStr`, which maps both `none` and the empty string to `none`.
* Remote SDK calls are passed in as `Except String`-valued parameters: an
  `Except.error m` models the call raising an ordinary (non-MCP) exception
  with message `m`.
* A deliberately raised `McpError` is the `Outcome.raisedMcp` constructor;
  the uniform error envelope of `format_error_response` is `Outcome.envelope`.
-/

/-- A Python value as it appears in the tool-layer dictionaries. The tool
layer only compares these for equality and passes them through, so the
constructors enumerate the value shapes the code actually handles: strings,
booleans, integers, lists and key/value property bags (with string entries,
which is all the DeviceHub records carry). -/
inductive Value where
  | null : Value
  | str : String → Value
  | bool : Bool → Value
  | int : Int → Value
  | list : List String → Value
  | pairs : List (String × String) → Value
deriving DecidableEq, Repr

/-- Three-valued attribute used where the code distinguishes an absent
attribute from one set to `None` (the `metadata` default). -/
inductive RawAttr where
  | absent : RawAttr
  | null : RawAttr
  | val : Value → RawAttr
deriving DecidableEq, Repr

/-- `getattr(x, field, "unknown")` as used for device metadata:
absent yields the substitute string, a null value yields `none`. -/
def RawAttr.getattrUnknown : RawAttr → Option Value
  | .absent => some (.str "unknown")
  | .null => none
  | .val v => some v

/-- A communication channel attached to a tag. -/
structure Topic where
  topic : String
  direction : String
deriving DecidableEq, Repr

/-- A raw driver record as returned by `list_all_drivers`. -/
structure RawDriver where
  name : String
  id : Option Value := none
  protocol : Option Value := none
  version : Option Value := none
  description : Option Value := none
  category : Option Value := none
deriving DecidableEq, Repr

/-- A raw device record as returned by `devices.list_devices`. -/
structure RawDevice where
  name : String
  id : Option String := none
  driver : Option Value := none
  metadata : RawAttr := .absent
  description : Option Value := none
  properties : Option Value := none
deriving DecidableEq, Repr

/-- A raw tag record as returned by the tag listing calls. -/
structure RawTag where
  tag_name : String
  id : Option String := none
  device : Option String := none
  device_name : Option String := none
  value_type : Option Value := none
  description : Option Value := none
  properties : Option Value := none
  publish_cov : Option Value := none
  address : Option Value := none
  data_type : Option Value := none
  scaling : Option Value := none
  read_write : Option Value := none
  unit : Option Value := none
  topics : List Topic := []
deriving DecidableEq, Repr

/-- The dict comprehension `{k: v for k, v in d.items() if v is not None}`
over an insertion-ordered dictionary. -/
def dropNone (m : List (String × Option Value)) : List (String × Value) :=
  m.filterMap (fun p => p.2.map (fun v => (p.1, v)))

/-- Python truthiness for an optional string argument: `None` and the empty
string are falsy. -/
def truthyStr : Option String → Option String
  | none => none
  | some s => if s = "" then none else some s

/-- Driver normalization (`get_litmusedge_driver_list`, lines 30-38). -/
def buildDriverInfo (d : RawDriver) : List (String × Value) :=
  dropNone [("name", some (.str d.name)), ("id", d.id), ("protocol", d.protocol),
    ("version", d.version), ("description", d.description), ("category", d.category)]

/-- Device normalization (`_build_device_info`). -/
def build_device_info (d : RawDevice) : List (String × Value) :=
  dropNone [("name", some (.str d.name)), ("id", d.id.map .str), ("driver", d.driver),
    ("metadata", d.metadata.getattrUnknown), ("description", d.description),
    ("properties", d.properties)]

/-- Per-device tag normalization (`get_devicehub_device_tags`, lines 226-236). -/
def buildDeviceTagInfo (t : RawTag) : List (String × Value) :=
  dropNone [("tag_name", some (.str t.tag_name)), ("id", t.id.map .str),
    ("address", t.address), ("data_type", t.data_type), ("scaling", t.scaling),
    ("read_write", t.read_write), ("unit", t.unit), ("description", t.description)]

/-- Global tag normalization (`list_all_devicehub_tags`, lines 428-436). -/
def buildTagGlobal (t : RawTag) : List (String × Value) :=
  dropNone [("tag_name", some (.str t.tag_name)), ("id", t.id.map .str),
    ("device", t.device.map .str), ("value_type", t.value_type),
    ("description", t.description), ("publish_cov", t.publish_cov)]

/-- Tag normalization shared by `create_devicehub_tag` / `update_devicehub_tag`
result payloads (lines 521-529 and 622-630). -/
def buildTagMutInfo (t : RawTag) : List (String × Value) :=
  dropNone [("tag_name", some (.str t.tag_name)), ("id", t.id.map .str),
    ("device", t.device.map .str), ("value_type", t.value_type),
    ("description", t.description), ("publish_cov", t.publish_cov)]

/-- Re-normalizing an already-normalized mapping: view every retained entry as
a present, non-null attribute and drop nulls again. -/
def reNorm (l : List (String × Value)) : List (String × Value) :=
  dropNone (l.map (fun p => (p.1, some p.2)))

theorem reNorm_dropNone (m : List (String × Option Value)) :
    reNorm (dropNone m) = dropNone m := by
  induction m with
  | nil => rfl
  | cons p rest ih =>
    cases p with
    | mk k v =>
      cases v with
      | none => simpa [dropNone, reNorm] using ih
      | some w => simpa [dropNone, reNorm] using ih

/-- Error classification carried by a deliberately raised `McpError`. -/
inductive ErrCode where
  | invalidParams : ErrCode
  | internalError : ErrCode
deriving DecidableEq, Repr

/-- Result of one tool operation: a success envelope, the uniform error
envelope (reason code, message) produced by `format_error_response`, or a
re-raised `McpError` (classification, message). -/
inductive Outcome (π : Type) where
  | success : π → Outcome π
  | envelope : String → String → Outcome π
  | raisedMcp : ErrCode → String → Outcome π
deriving DecidableEq, Repr

/-- A mutating call issued to the remote catalog. -/
inductive RemoteCall where
  | createTags : List RawTag → RemoteCall
  | updateTags : List RawTag → RemoteCall
  | deleteOne : RawTag → RemoteCall
  | deleteMany : List RawTag → RemoteCall
deriving DecidableEq, Repr

/-- `_find_device_by_name`: linear scan, first match by name equality. -/
def find_device_by_name (devs : List RawDevice) (device_name : String) :
    Option RawDevice :=
  devs.find? (fun d => d.name == device_name)

/-- Single-tag resolution of `get_current_value_of_devicehub_tag`
(lines 301-308): a truthy `tag_name` takes precedence, otherwise the id is
used. The arguments are assumed truthiness-normalized. -/
def resolveTagSingle (tl : List RawTag) (tag_name tag_id : Option String) :
    Option RawTag :=
  match tag_name with
  | some n => tl.find? (fun t => t.tag_name == n)
  | none => tl.find? (fun t => t.id == tag_id)

/-- `next((topic.topic for topic in tag.topics if topic.direction == "Output"), None)`. -/
def firstOutputTopic (t : RawTag) : Option String :=
  (t.topics.find? (fun tp => tp.direction == "Output")).map Topic.topic

/-- String projection used for sort keys: `x["name"]` / `x.get(k, "")`
where the stored value is a string. -/
def strOf : Option Value → String
  | some (.str s) => s
  | _ => ""

/-- Sort key of the driver and device listings: the `name` entry. -/
def infoName (info : List (String × Value)) : String :=
  strOf (info.lookup "name")

/-- Boolean comparison used to model `list.sort(key=lambda x: x["name"])`. -/
def infoNameLe (a b : List (String × Value)) : Bool :=
  decide (infoName a ≤ infoName b)

/-- Composite sort key of the global tag listing:
`(x.get("device", ""), x.get("tag_name", ""))`. -/
def tagSortKey (info : List (String × Value)) : String × String :=
  (strOf (info.lookup "device"), strOf (info.lookup "tag_name"))

/-- Lexicographic comparison of Python string pairs. -/
def pairLe (a b : String × String) : Bool :=
  decide (a.1 < b.1 ∨ (a.1 = b.1 ∧ a.2 ≤ b.2))

/-- Boolean comparison modelling
`tag_data.sort(key=lambda x: (x.get("device", ""), x.get("tag_name", "")))`. -/
def tagSortLe (a b : List (String × Value)) : Bool :=
  pairLe (tagSortKey a) (tagSortKey b)

/-- `counts[key] = counts.get(key, 0) + 1` on an insertion-ordered dict. -/
def bump (m : List (Value × Nat)) (k : Value) : List (Value × Nat) :=
  if m.any (fun p => p.1 == k) then
    m.map (fun p => if p.1 == k then (p.1, p.2 + 1) else p)
  else m ++ [(k, 1)]

/-- Same upsert for string-keyed count dictionaries. -/
def bumpStr (m : List (String × Nat)) (k : String) : List (String × Nat) :=
  if m.any (fun p => p.1 == k) then
    m.map (fun p => if p.1 == k then (p.1, p.2 + 1) else p)
  else m ++ [(k, 1)]

/-- `_create_device_summary`: count of devices grouped by their (possibly
missing, hence `"unknown"`) normalized driver value. -/
def create_device_summary (infos : List (List (String × Value))) :
    List (Value × Nat) :=
  infos.foldl (fun acc info => bump acc ((info.lookup "driver").getD (.str "unknown"))) []

/-- Success payload of `get_litmusedge_driver_list`. -/
structure DriversPayload where
  count : Nat
  drivers : List (List (String × Value))
  driver_names : List String
deriving DecidableEq, Repr

/-- `get_litmusedge_driver_list`: fetch, normalize, sort by name. -/
def get_litmusedge_driver_list (gwDrivers : Except String (List RawDriver)) :
    Outcome DriversPayload :=
  match gwDrivers with
  | .error m => .envelope "retrieval_failed" m
  | .ok dl =>
    let drivers := (dl.map buildDriverInfo).mergeSort infoNameLe
    .success { count := drivers.length, drivers := drivers,
               driver_names := drivers.map infoName }

/-- Arguments mapping of `get_devicehub_devices`. -/
structure DevicesArgs where
  filter_by_driver : Option String := none
deriving Repr

/-- Success payload of `get_devicehub_devices`. -/
structure DevicesPayload where
  count : Nat
  devices : List (List (String × Value))
  by_driver : List (Value × Nat)
  filters_applied : Option String
deriving DecidableEq, Repr

/-- `get_devicehub_devices`: normalize, filter by driver, sort by name,
summarize. -/
def get_devicehub_devices (gwDevices : Except String (List RawDevice))
    (args : DevicesArgs) : Outcome DevicesPayload :=
  let fb := truthyStr args.filter_by_driver
  match gwDevices with
  | .error m => .envelope "retrieval_failed" m
  | .ok dl =>
    let device_data := (dl.map build_device_info).filter (fun info =>
      match fb with
      | some f => info.lookup "driver" == some (.str f)
      | none => true)
    let sorted := device_data.mergeSort infoNameLe
    .success { count := sorted.length, devices := sorted,
               by_driver := create_device_summary sorted, filters_applied := fb }

/-- Arguments mapping of `get_current_value_of_devicehub_tag`. -/
structure ReadArgs where
  device_name : Option String := none
  tag_name : Option String := none
  tag_id : Option String := none
deriving Repr

/-- Success payload of `get_current_value_of_devicehub_tag`: the live value
plus the echoed identifiers (`tag_name or requested_tag.tag_name`,
`tag_id or requested_tag.id`). -/
structure ReadPayload where
  device_name : String
  tag_name : String
  tag_id : Option String
  data : Value
deriving DecidableEq, Repr

/-- The identifier string interpolated into the tag lookup messages of
`get_current_value_of_devicehub_tag` (lines 305 and 308). -/
def readIdentifier (tag_name tag_id : Option String) : String :=
  match tag_name with
  | some n => "name " ++ n
  | none => "ID " ++ tag_id.getD ""

/-- The success payload of `get_current_value_of_devicehub_tag`
(lines 343-348): `tag_name or requested_tag.tag_name` and
`tag_id or requested_tag.id`. -/
def mkReadPayload (dn : String) (tag_name tag_id : Option String) (t : RawTag)
    (v : Value) : ReadPayload :=
  { device_name := dn, tag_name := tag_name.getD t.tag_name,
    tag_id := match tag_id with
      | some i => some i
      | none => t.id,
    data := v }

/-- `get_current_value_of_devicehub_tag`: validate, resolve device and tag,
select the first Output topic, read the live value by topic. -/
def get_current_value_of_devicehub_tag
    (gwDevices : Except String (List RawDevice))
    (gwTagsOf : RawDevice → Except String (List RawTag))
    (gwTopicValue : String → Except String Value)
    (args : ReadArgs) : Outcome ReadPayload :=
  match truthyStr args.device_name with
  | none => .raisedMcp .invalidParams "device_name parameter is required"
  | some dn =>
    let tagName := truthyStr args.tag_name
    let tagId := truthyStr args.tag_id
    if tagName = none ∧ tagId = none then
      .raisedMcp .invalidParams
        "Either tag_name or tag_id is required. Use get_devicehub_device_tags to see available tags."
    else
      match gwDevices with
      | .error m => .envelope "read_failed" m
      | .ok dl =>
        match find_device_by_name dl dn with
        | none => .raisedMcp .invalidParams
            ("Device " ++ dn ++ " not found. Use get_devicehub_devices to see available devices.")
        | some dev =>
          match gwTagsOf dev with
          | .error m => .envelope "read_failed" m
          | .ok tl =>
            let identifier := readIdentifier tagName tagId
            match resolveTagSingle tl tagName tagId with
            | none => .raisedMcp .invalidParams
                ("Tag with " ++ identifier ++ " not found on device " ++ dn)
            | some t =>
              match truthyStr (firstOutputTopic t) with
              | none => .raisedMcp .internalError
                  ("No output topic found for tag " ++ identifier)
              | some tp =>
                match gwTopicValue tp with
                | .error m => .envelope "read_failed" m
                | .ok v => .success (mkReadPayload dn tagName tagId t v)

/-- Arguments mapping of `list_all_devicehub_tags`. -/
structure AllTagsArgs where
  device_name : Option String := none
deriving Repr

/-- Success payload of `list_all_devicehub_tags`. -/
structure AllTagsPayload where
  count : Nat
  tags : List (List (String × Value))
  by_device : List (String × Nat)
  filters_applied : Option String
deriving DecidableEq, Repr

/-- The device filter of `list_all_devicehub_tags` (lines 421-426): a tag is
skipped only when its own `device_name` attribute is truthy and differs from
the filter value. -/
def keepTag (f : String) (t : RawTag) : Bool :=
  match truthyStr t.device_name with
  | some s => s == f
  | none => true

/-- `list_all_devicehub_tags`: fetch every tag, filter by the tag record's
own device-name attribute, normalize, sort by (device, tag_name), count by
device id. -/
def list_all_devicehub_tags (gwAllTags : Except String (List RawTag))
    (args : AllTagsArgs) : Outcome AllTagsPayload :=
  let fb := truthyStr args.device_name
  match gwAllTags with
  | .error m => .envelope "retrieval_failed" m
  | .ok ts =>
    let kept := ts.filter (fun t =>
      match fb with
      | some f => keepTag f t
      | none => true)
    let tag_data := (kept.map buildTagGlobal).mergeSort tagSortLe
    let counts := kept.foldl
      (fun acc t => bumpStr acc ((truthyStr t.device).getD "unknown")) []
    .success { count := tag_data.length, tags := tag_data,
               by_device := counts, filters_applied := fb }

/-- Arguments mapping of `create_devicehub_tag`. `none` models an argument
that was not supplied, so the `arguments.get(k, default)` fallbacks of the
code are applied inside the operation. -/
structure CreateArgs where
  device_name : Option String := none
  tag_name : Option String := none
  value_type : Option String := none
  description : Option Value := none
  properties : Option Value := none
  publish_cov : Option Value := none
deriving Repr

/-- Success payload of `create_devicehub_tag` / `update_devicehub_tag`. -/
structure TagMutPayload where
  device_name : String
  tag : List (String × Value)
deriving DecidableEq, Repr

/-- The `Tag(...)` construction of `create_devicehub_tag` (lines 507-514):
a new tag bound to the resolved device id. -/
def mkNewTag (dev : RawDevice) (tn vt : String)
    (description properties publish_cov : Value) : RawTag :=
  { tag_name := tn, device := dev.id, value_type := some (.str vt),
    description := some description, properties := some properties,
    publish_cov := some publish_cov }

/-- `create_devicehub_tag`: validate, resolve the device, build the new tag
bound to the device id, issue a single-element batch create. The second
component records the mutating remote calls that were issued. -/
def create_devicehub_tag
    (gwDevices : Except String (List RawDevice))
    (gwCreate : List RawTag → Except String (List RawTag))
    (args : CreateArgs) : Outcome TagMutPayload × List RemoteCall :=
  let description := args.description.getD (.str "")
  let properties := args.properties.getD (.list [])
  let publish_cov := args.publish_cov.getD (.bool false)
  match truthyStr args.device_name with
  | none => (.raisedMcp .invalidParams "device_name parameter is required", [])
  | some dn =>
    match truthyStr args.tag_name with
    | none => (.raisedMcp .invalidParams "tag_name parameter is required", [])
    | some tn =>
      match truthyStr args.value_type with
      | none => (.raisedMcp .invalidParams "value_type parameter is required", [])
      | some vt =>
        match gwDevices with
        | .error m => (.envelope "creation_failed" m, [])
        | .ok dl =>
          match find_device_by_name dl dn with
          | none => (.raisedMcp .invalidParams
              ("Device " ++ dn ++ " not found. Use get_devicehub_devices to see available devices."), [])
          | some dev =>
            let new_tag : RawTag := mkNewTag dev tn vt description properties
              publish_cov
            match gwCreate [new_tag] with
            | .error m => (.envelope "creation_failed" m, [.createTags [new_tag]])
            | .ok [] => (.raisedMcp .internalError "Tag creation returned no results",
                [.createTags [new_tag]])
            | .ok (c :: _) =>
              (.success { device_name := dn, tag := buildTagMutInfo c },
               [.createTags [new_tag]])

/-- Arguments mapping of `update_devicehub_tag`. The updatable fields are
checked with `is not None` in the code, so they carry no truthiness
normalization. -/
structure UpdateArgs where
  device_name : Option String := none
  tag_id : Option String := none
  tag_name : Option String := none
  value_type : Option Value := none
  description : Option Value := none
  properties : Option Value := none
  publish_cov : Option Value := none
deriving Repr

/-- The partial merge of `update_devicehub_tag` (lines 605-615): each field
explicitly present in the request overwrites the resolved tag, every omitted
field keeps its previous value. -/
def applyUpdate (args : UpdateArgs) (t : RawTag) : RawTag :=
  let t1 := match args.tag_name with
    | some n => { t with tag_name := n }
    | none => t
  let t2 := match args.value_type with
    | some v => { t1 with value_type := some v }
    | none => t1
  let t3 := match args.description with
    | some v => { t2 with description := some v }
    | none => t2
  let t4 := match args.properties with
    | some v => { t3 with properties := some v }
    | none => t3
  match args.publish_cov with
  | some v => { t4 with publish_cov := some v }
  | none => t4

/-- `update_devicehub_tag`: validate, resolve device and existing tag by id,
merge only the supplied fields, issue a single-element batch update. -/
def update_devicehub_tag
    (gwDevices : Except String (List RawDevice))
    (gwTagsOf : RawDevice → Except String (List RawTag))
    (gwUpdate : List RawTag → Except String (List RawTag))
    (args : UpdateArgs) : Outcome TagMutPayload × List RemoteCall :=
  match truthyStr args.device_name with
  | none => (.raisedMcp .invalidParams "device_name parameter is required", [])
  | some dn =>
    match truthyStr args.tag_id with
    | none => (.raisedMcp .invalidParams "tag_id parameter is required for updates", [])
    | some tid =>
      match gwDevices with
      | .error m => (.envelope "update_failed" m, [])
      | .ok dl =>
        match find_device_by_name dl dn with
        | none => (.raisedMcp .invalidParams
            ("Device " ++ dn ++ " not found. Use get_devicehub_devices to see available devices."), [])
        | some dev =>
          match gwTagsOf dev with
          | .error m => (.envelope "update_failed" m, [])
          | .ok tl =>
            match tl.find? (fun t => t.id == some tid) with
            | none => (.raisedMcp .invalidParams
                ("Tag with ID " ++ tid ++ " not found on device " ++ dn), [])
            | some existing =>
              let merged := applyUpdate args existing
              match gwUpdate [merged] with
              | .error m => (.envelope "update_failed" m, [.updateTags [merged]])
              | .ok [] => (.raisedMcp .internalError "Tag update returned no results",
                  [.updateTags [merged]])
              | .ok (u :: _) =>
                (.success { device_name := dn, tag := buildTagMutInfo u },
                 [.updateTags [merged]])

/-- Arguments mapping of `delete_devicehub_tag`. A missing `tag_ids` argument
defaults to the empty list (`arguments.get("tag_ids", [])`), and an empty
list is falsy, so `tag_ids : List String` needs no separate absent state. -/
structure DeleteArgs where
  device_name : Option String := none
  tag_name : Option String := none
  tag_id : Option String := none
  tag_ids : List String := []
deriving Repr

/-- Success payload of `delete_devicehub_tag`. -/
structure DeletePayload where
  device_name : String
  deleted_count : Nat
  deleted_tags : List String
deriving DecidableEq, Repr

/-- Tag resolution of `delete_devicehub_tag` (lines 699-720): a non-empty
`tag_ids` list wins and resolves each id, skipping non-matching identifiers;
otherwise a truthy `tag_id`, otherwise a truthy `tag_name`. -/
def resolveTagsForDelete (tl : List RawTag) (tag_name tag_id : Option String)
    (tag_ids : List String) : List RawTag :=
  if tag_ids ≠ [] then
    tag_ids.filterMap (fun tid => tl.find? (fun t => t.id == some tid))
  else
    match tag_id with
    | some i => (tl.find? (fun t => t.id == some i)).toList
    | none =>
      match tag_name with
      | some n => (tl.find? (fun t => t.tag_name == n)).toList
      | none => []

/-- `delete_devicehub_tag`: validate, resolve device, resolve one or many
tags, use the single-item delete call for exactly one resolved tag and the
batch delete call for more. -/
def delete_devicehub_tag
    (gwDevices : Except String (List RawDevice))
    (gwTagsOf : RawDevice → Except String (List RawTag))
    (gwDeleteOne : RawTag → Except String Unit)
    (gwDeleteMany : List RawTag → Except String Unit)
    (args : DeleteArgs) : Outcome DeletePayload × List RemoteCall :=
  match truthyStr args.device_name with
  | none => (.raisedMcp .invalidParams "device_name parameter is required", [])
  | some dn =>
    let tagName := truthyStr args.tag_name
    let tagId := truthyStr args.tag_id
    if tagName = none ∧ tagId = none ∧ args.tag_ids = [] then
      (.raisedMcp .invalidParams "Either tag_name, tag_id, or tag_ids is required", [])
    else
      match gwDevices with
      | .error m => (.envelope "deletion_failed" m, [])
      | .ok dl =>
        match find_device_by_name dl dn with
        | none => (.raisedMcp .invalidParams
            ("Device " ++ dn ++ " not found. Use get_devicehub_devices to see available devices."), [])
        | some dev =>
          match gwTagsOf dev with
          | .error m => (.envelope "deletion_failed" m, [])
          | .ok tl =>
            match resolveTagsForDelete tl tagName tagId args.tag_ids with
            | [] => (.raisedMcp .invalidParams "No matching tags found to delete", [])
            | [t] =>
              match gwDeleteOne t with
              | .error m => (.envelope "deletion_failed" m, [.deleteOne t])
              | .ok _ =>
                (.success { device_name := dn, deleted_count := 1,
                            deleted_tags := [t.tag_name] }, [.deleteOne t])
            | ts =>
              match gwDeleteMany ts with
              | .error m => (.envelope "deletion_failed" m, [.deleteMany ts])
              | .ok _ =>
                (.success { device_name := dn, deleted_count := ts.length,
                            deleted_tags := ts.map RawTag.tag_name }, [.deleteMany ts])

theorem mem_dropNone {m : List (String × Option Value)} {k : String} {v : Value} :
    (k, v) ∈ dropNone m ↔ (k, some v) ∈ m := by
  induction m with
  | nil => simp [dropNone]
  | cons p rest ih =>
    obtain ⟨k', v'⟩ := p
    cases v' with
    | none =>
      simp only [dropNone, List.filterMap_cons, Option.map_none'] at ih ⊢
      simp only [List.mem_cons, ih]
      constructor
      · exact Or.inr
      · rintro (h | h)
        · exact absurd h (by simp)
        · exact h
    | some w =>
      simp only [dropNone, List.filterMap_cons, Option.map_some'] at ih ⊢
      simp [List.mem_cons, ih]

theorem mem_keys_dropNone {m : List (String × Option Value)} {k : String} :
    k ∈ (dropNone m).map Prod.fst ↔ ∃ v, (k, some v) ∈ m := by
  constructor
  · intro h
    obtain ⟨⟨k', v⟩, hmem, hk⟩ := List.mem_map.mp h
    cases hk
    exact ⟨v, mem_dropNone.mp hmem⟩
  · rintro ⟨v, hv⟩
    exact List.mem_map.mpr ⟨(k, v), mem_dropNone.mpr hv, rfl⟩

/-- Device record with an absent metadata attribute, exercising the
`getattr(device, "metadata", "unknown")` default of `_build_device_info`. -/
def devMetaAbsent : RawDevice := { name := "PLC1" }

/-- Claim C1, counterexample: the claim says every attribute absent on the
raw record is absent from the normalized mapping, but a device whose
`metadata` attribute is absent is normalized with the substitute entry
`("metadata", "unknown")`. -/
theorem C1_counterexample :
    devMetaAbsent.metadata = RawAttr.absent ∧
    ("metadata", Value.str "unknown") ∈ build_device_info devMetaAbsent := by
  refine ⟨rfl, ?_⟩
  simp [build_device_info, dropNone, devMetaAbsent, RawAttr.getattrUnknown]

/-- Claim C1, amended: normalization of drivers, devices and tags drops every
attribute that is absent or null, except a device metadata attribute, which
when absent (as opposed to null) is emitted with the substitute value
"unknown"; a null metadata attribute is still dropped. Re-normalizing any
normalized mapping leaves it unchanged (idempotence). -/
theorem C1_normalization_sparse_idempotent :
    (∀ d : RawDriver,
      (d.id = none → "id" ∉ (buildDriverInfo d).map Prod.fst) ∧
      (d.protocol = none → "protocol" ∉ (buildDriverInfo d).map Prod.fst) ∧
      (d.version = none → "version" ∉ (buildDriverInfo d).map Prod.fst) ∧
      (d.description = none → "description" ∉ (buildDriverInfo d).map Prod.fst) ∧
      (d.category = none → "category" ∉ (buildDriverInfo d).map Prod.fst)) ∧
    (∀ d : RawDevice,
      (d.id = none → "id" ∉ (build_device_info d).map Prod.fst) ∧
      (d.driver = none → "driver" ∉ (build_device_info d).map Prod.fst) ∧
      (d.description = none → "description" ∉ (build_device_info d).map Prod.fst) ∧
      (d.properties = none → "properties" ∉ (build_device_info d).map Prod.fst) ∧
      (d.metadata = RawAttr.null → "metadata" ∉ (build_device_info d).map Prod.fst) ∧
      (d.metadata = RawAttr.absent →
        ("metadata", Value.str "unknown") ∈ build_device_info d)) ∧
    (∀ t : RawTag,
      (t.id = none → "id" ∉ (buildTagGlobal t).map Prod.fst) ∧
      (t.device = none → "device" ∉ (buildTagGlobal t).map Prod.fst) ∧
      (t.value_type = none → "value_type" ∉ (buildTagGlobal t).map Prod.fst) ∧
      (t.description = none → "description" ∉ (buildTagGlobal t).map Prod.fst) ∧
      (t.publish_cov = none → "publish_cov" ∉ (buildTagGlobal t).map Prod.fst) ∧
      (t.id = none → "id" ∉ (buildDeviceTagInfo t).map Prod.fst) ∧
      (t.address = none → "address" ∉ (buildDeviceTagInfo t).map Prod.fst) ∧
      (t.data_type = none → "data_type" ∉ (buildDeviceTagInfo t).map Prod.fst) ∧
      (t.scaling = none → "scaling" ∉ (buildDeviceTagInfo t).map Prod.fst) ∧
      (t.read_write = none → "read_write" ∉ (buildDeviceTagInfo t).map Prod.fst) ∧
      (t.unit = none → "unit" ∉ (buildDeviceTagInfo t).map Prod.fst) ∧
      (t.description = none → "description" ∉ (buildDeviceTagInfo t).map Prod.fst)) ∧
    (∀ d : RawDriver, reNorm (buildDriverInfo d) = buildDriverInfo d) ∧
    (∀ d : RawDevice, reNorm (build_device_info d) = build_device_info d) ∧
    (∀ t : RawTag, reNorm (buildTagGlobal t) = buildTagGlobal t) ∧
    (∀ t : RawTag, reNorm (buildDeviceTagInfo t) = buildDeviceTagInfo t) := by
  refine ⟨fun d => ⟨?_, ?_, ?_, ?_, ?_⟩,
          fun d => ⟨?_, ?_, ?_, ?_, ?_, ?_⟩,
          fun t => ⟨?_, ?_, ?_, ?_, ?_, ?_, ?_, ?_, ?_, ?_, ?_, ?_⟩,
          fun d => reNorm_dropNone _, fun d => reNorm_dropNone _,
          fun t => reNorm_dropNone _, fun t => reNorm_dropNone _⟩ <;>
  · intro h
    simp [buildDriverInfo, build_device_info, buildTagGlobal, buildDeviceTagInfo,
      mem_keys_dropNone, mem_dropNone, h, RawAttr.getattrUnknown]

/-- Claim C1, witness: the amended theorem applied to a concrete driver with
a null id and a concrete device with an absent metadata attribute. -/
theorem C1_witness :
    "id" ∉ (buildDriverInfo { name := "ModbusTCP" }).map Prod.fst ∧
    ("metadata", Value.str "unknown") ∈ build_device_info { name := "PLC9" } :=
  ⟨(C1_normalization_sparse_idempotent.1 { name := "ModbusTCP" }).1 rfl,
   (C1_normalization_sparse_idempotent.2.1 { name := "PLC9" }).2.2.2.2.2 rfl⟩

/-- Claim C2: updateTag is a true partial merge. Every field omitted from the
request keeps the resolved tag's previous value, and in particular when only
`description` is supplied, the tag sent to the remote update call keeps
`tag_name`, `value_type`, `properties` and `publish_cov` of the pre-update
record. -/
theorem C2_update_partial_merge :
    (∀ (args : UpdateArgs) (t : RawTag),
      (args.tag_name = none → (applyUpdate args t).tag_name = t.tag_name) ∧
      (args.value_type = none → (applyUpdate args t).value_type = t.value_type) ∧
      (args.description = none → (applyUpdate args t).description = t.description) ∧
      (args.properties = none → (applyUpdate args t).properties = t.properties) ∧
      (args.publish_cov = none → (applyUpdate args t).publish_cov = t.publish_cov)) ∧
    (∀ (dl : List RawDevice) (gwTagsOf : RawDevice → Except String (List RawTag))
       (gwUpdate : List RawTag → Except String (List RawTag))
       (args : UpdateArgs) (dn tid : String) (dev : RawDevice)
       (tl : List RawTag) (t : RawTag),
      truthyStr args.device_name = some dn →
      truthyStr args.tag_id = some tid →
      find_device_by_name dl dn = some dev →
      gwTagsOf dev = Except.ok tl →
      tl.find? (fun u => u.id == some tid) = some t →
      args.tag_name = none → args.value_type = none →
      args.properties = none → args.publish_cov = none →
      ∃ sent : RawTag,
        (update_devicehub_tag (Except.ok dl) gwTagsOf gwUpdate args).2 =
          [RemoteCall.updateTags [sent]] ∧
        sent.tag_name = t.tag_name ∧ sent.value_type = t.value_type ∧
        sent.properties = t.properties ∧ sent.publish_cov = t.publish_cov) := by
  have frame : ∀ (args : UpdateArgs) (t : RawTag),
      (args.tag_name = none → (applyUpdate args t).tag_name = t.tag_name) ∧
      (args.value_type = none → (applyUpdate args t).value_type = t.value_type) ∧
      (args.description = none → (applyUpdate args t).description = t.description) ∧
      (args.properties = none → (applyUpdate args t).properties = t.properties) ∧
      (args.publish_cov = none → (applyUpdate args t).publish_cov = t.publish_cov) := by
    intro args t
    obtain ⟨dn, tid, tn, vt, ds, pr, pc⟩ := args
    cases tn <;> cases vt <;> cases ds <;> cases pr <;> cases pc <;>
      simp [applyUpdate]
  refine ⟨frame, ?_⟩
  intro dl gwTagsOf gwUpdate args dn tid dev tl t hdn htid hdev htl hfind h1 h2 h3 h4
  refine ⟨applyUpdate args t, ?_, (frame args t).1 h1, (frame args t).2.1 h2,
    (frame args t).2.2.2.1 h3, (frame args t).2.2.2.2 h4⟩
  simp only [update_devicehub_tag, hdn, htid, hdev, htl, hfind]
  rcases hup : gwUpdate [applyUpdate args t] with m | us
  · rfl
  · cases us <;> rfl

/-- Device used by the concrete update/delete scenarios. -/
def devPLC1 : RawDevice := { name := "PLC1", id := some "d1" }

/-- Pre-update tag record of the concrete update scenario. -/
def tagTemp : RawTag :=
  { tag_name := "Temp", id := some "t1", device := some "d1",
    value_type := some (.str "Int16"), description := some (.str "old"),
    properties := some (.pairs [("addr", "40001")]),
    publish_cov := some (.bool false) }

/-- Claim C2, witness: a description-only update of the concrete tag sends a
tag keeping the previous name, value type, properties and COV flag. -/
theorem C2_witness :
    ∃ sent : RawTag,
      (update_devicehub_tag (Except.ok [devPLC1]) (fun _ => Except.ok [tagTemp])
        (fun ts => Except.ok ts)
        { device_name := some "PLC1", tag_id := some "t1",
          description := some (.str "new") }).2 =
        [RemoteCall.updateTags [sent]] ∧
      sent.tag_name = tagTemp.tag_name ∧ sent.value_type = tagTemp.value_type ∧
      sent.properties = tagTemp.properties ∧ sent.publish_cov = tagTemp.publish_cov :=
  C2_update_partial_merge.2 [devPLC1] (fun _ => Except.ok [tagTemp])
    (fun ts => Except.ok ts)
    { device_name := some "PLC1", tag_id := some "t1",
      description := some (.str "new") }
    "PLC1" "t1" devPLC1 [tagTemp] tagTemp
    (by decide) (by decide) (by decide) rfl (by decide) rfl rfl rfl rfl

/-- Claim C3: deleteTag batch semantics. With a supplied `tag_ids` list,
identifiers matching no tag on the device are silently skipped; if no
identifier resolves the operation raises a validation error and issues no
delete call; if exactly one resolves the single-item delete call is used; if
more than one resolves the batch delete call is used, and the success result
reports the number of resolved tags. -/
theorem C3_delete_batch_semantics :
    ∀ (dl : List RawDevice) (gwTagsOf : RawDevice → Except String (List RawTag))
      (gwDeleteOne : RawTag → Except String Unit)
      (gwDeleteMany : List RawTag → Except String Unit)
      (args : DeleteArgs) (dn : String) (dev : RawDevice) (tl : List RawTag),
      truthyStr args.device_name = some dn →
      args.tag_ids ≠ [] →
      find_device_by_name dl dn = some dev →
      gwTagsOf dev = Except.ok tl →
      (args.tag_ids.filterMap (fun tid => tl.find? (fun t => t.id == some tid)) = [] →
        delete_devicehub_tag (Except.ok dl) gwTagsOf gwDeleteOne gwDeleteMany args =
          (Outcome.raisedMcp .invalidParams "No matching tags found to delete", [])) ∧
      (∀ t : RawTag,
        args.tag_ids.filterMap (fun tid => tl.find? (fun t => t.id == some tid)) = [t] →
        gwDeleteOne t = Except.ok () →
        delete_devicehub_tag (Except.ok dl) gwTagsOf gwDeleteOne gwDeleteMany args =
          (Outcome.success { device_name := dn, deleted_count := 1,
                             deleted_tags := [t.tag_name] },
           [RemoteCall.deleteOne t])) ∧
      (∀ (t1 t2 : RawTag) (rest : List RawTag),
        args.tag_ids.filterMap (fun tid => tl.find? (fun t => t.id == some tid)) =
          t1 :: t2 :: rest →
        gwDeleteMany (t1 :: t2 :: rest) = Except.ok () →
        delete_devicehub_tag (Except.ok dl) gwTagsOf gwDeleteOne gwDeleteMany args =
          (Outcome.success { device_name := dn,
                             deleted_count := (t1 :: t2 :: rest).length,
                             deleted_tags := (t1 :: t2 :: rest).map RawTag.tag_name },
           [RemoteCall.deleteMany (t1 :: t2 :: rest)])) := by
  intro dl gwTagsOf gwDeleteOne gwDeleteMany args dn dev tl hdn hids hdev htl
  have hcond : ¬(truthyStr args.tag_name = none ∧ truthyStr args.tag_id = none ∧
      args.tag_ids = []) := by
    intro h
    exact hids h.2.2
  have hres : resolveTagsForDelete tl (truthyStr args.tag_name)
      (truthyStr args.tag_id) args.tag_ids =
      args.tag_ids.filterMap (fun tid => tl.find? (fun t => t.id == some tid)) := by
    simp [resolveTagsForDelete, hids]
  refine ⟨?_, ?_, ?_⟩
  · intro hnone
    simp only [delete_devicehub_tag, hdn, hdev, htl, if_neg hcond, hres, hnone]
  · intro t hone hok
    simp only [delete_devicehub_tag, hdn, hdev, htl, if_neg hcond, hres, hone, hok]
  · intro t1 t2 rest hmany hok
    simp only [delete_devicehub_tag, hdn, hdev, htl, if_neg hcond, hres, hmany, hok]

/-- Concrete tag with id `a` for the delete scenario. -/
def tagA : RawTag := { tag_name := "TagA", id := some "a", device := some "d1" }

/-- Concrete tag with id `c` for the delete scenario. -/
def tagC : RawTag := { tag_name := "TagC", id := some "c", device := some "d1" }

/-- Claim C3, witness: deleting `tag_ids = [a, b, c]` on a device holding only
tags `a` and `c` skips `b`, deletes the two resolved tags through the batch
call and reports `deleted_count = 2`. -/
theorem C3_witness :
    delete_devicehub_tag (Except.ok [devPLC1]) (fun _ => Except.ok [tagA, tagC])
      (fun _ => Except.ok ()) (fun _ => Except.ok ())
      { device_name := some "PLC1", tag_ids := ["a", "b", "c"] } =
      (Outcome.success { device_name := "PLC1", deleted_count := 2,
                         deleted_tags := ["TagA", "TagC"] },
       [RemoteCall.deleteMany [tagA, tagC]]) :=
  C3_delete_batch_semantics [devPLC1] (fun _ => Except.ok [tagA, tagC])
    (fun _ => Except.ok ()) (fun _ => Except.ok ())
    { device_name := some "PLC1", tag_ids := ["a", "b", "c"] }
    "PLC1" devPLC1 [tagA, tagC]
    (by decide) (by decide) (by decide) rfl
    |>.2.2 tagA tagC [] (by decide) rfl

/-- Tag `Temp` with a readable output topic, for the read-value scenarios. -/
def tagTempT : RawTag :=
  { tag_name := "Temp", id := some "t1", device := some "d1",
    topics := [{ topic := "topicT", direction := "Output" }] }

/-- Tag `Pres`, second tag of the read-value scenarios. -/
def tagPres : RawTag :=
  { tag_name := "Pres", id := some "t2", device := some "d1",
    topics := [{ topic := "topicP", direction := "Output" }] }

/-- Claim C4, counterexample: supplying both `tag_name = Temp` and
`tag_id = t2` resolves the tag named `Temp` (canonical id `t1`), yet the
success payload echoes the caller-supplied `tag_id = t2`, not the resolved
tag's canonical id. -/
theorem C4_counterexample :
    get_current_value_of_devicehub_tag (Except.ok [devPLC1])
      (fun _ => Except.ok [tagTempT, tagPres]) (fun _ => Except.ok (.str "42"))
      { device_name := some "PLC1", tag_name := some "Temp", tag_id := some "t2" } =
      Outcome.success { device_name := "PLC1", tag_name := "Temp",
                        tag_id := some "t2", data := .str "42" } ∧
    resolveTagSingle [tagTempT, tagPres] (some "Temp") (some "t2") = some tagTempT ∧
    tagTempT.id = some "t1" ∧ (some "t2" : Option String) ≠ some "t1" := by
  refine ⟨by decide, by decide, rfl, by decide⟩

/-- Claim C4, amended: when at most one identifier is (truthily) supplied,
every successful read returns the resolved tag's canonical name and id in
the payload; only when both are supplied does the echoed `tag_id` stay the
caller's value. -/
theorem C4_read_enrichment :
    ∀ (dl : List RawDevice) (gwTagsOf : RawDevice → Except String (List RawTag))
      (gwTopicValue : String → Except String Value) (args : ReadArgs)
      (dn : String) (dev : RawDevice) (tl : List RawTag) (t : RawTag)
      (p : ReadPayload),
      truthyStr args.device_name = some dn →
      find_device_by_name dl dn = some dev →
      gwTagsOf dev = Except.ok tl →
      resolveTagSingle tl (truthyStr args.tag_name) (truthyStr args.tag_id) = some t →
      truthyStr args.tag_name = none ∨ truthyStr args.tag_id = none →
      get_current_value_of_devicehub_tag (Except.ok dl) gwTagsOf gwTopicValue args =
        Outcome.success p →
      p.tag_name = t.tag_name ∧ p.tag_id = t.id := by
  intro dl gwTagsOf gwTopicValue args dn dev tl t p hdn hdev htl hres hdisj hsucc
  rcases htn : truthyStr args.tag_name with _ | n <;>
    rcases hti : truthyStr args.tag_id with _ | i
  · rw [htn, hti] at hres
    simp only [get_current_value_of_devicehub_tag, hdn, htn, hti] at hsucc
    simp at hsucc
  · rw [htn, hti] at hres
    simp only [resolveTagSingle] at hres
    have hid : t.id = some i := by
      have := List.find?_some hres
      exact eq_of_beq this
    simp only [get_current_value_of_devicehub_tag, hdn, htn, hti, hdev, htl,
      resolveTagSingle, hres] at hsucc
    rcases htp : truthyStr (firstOutputTopic t) with _ | tp <;>
      simp only [htp] at hsucc
    · simp at hsucc
    · rcases hval : gwTopicValue tp with m | v <;> simp only [hval] at hsucc
      · simp at hsucc
      · rw [if_neg (by simp)] at hsucc
        injection hsucc with h
        subst h
        exact ⟨rfl, hid.symm⟩
  · rw [htn, hti] at hres
    simp only [resolveTagSingle] at hres
    have hname : t.tag_name = n := by
      have := List.find?_some hres
      exact eq_of_beq this
    simp only [get_current_value_of_devicehub_tag, hdn, htn, hti, hdev, htl,
      resolveTagSingle, hres] at hsucc
    rcases htp : truthyStr (firstOutputTopic t) with _ | tp <;>
      simp only [htp] at hsucc
    · simp at hsucc
    · rcases hval : gwTopicValue tp with m | v <;> simp only [hval] at hsucc
      · simp at hsucc
      · rw [if_neg (by simp)] at hsucc
        injection hsucc with h
        subst h
        exact ⟨hname.symm, rfl⟩
  · rcases hdisj with h | h
    · rw [htn] at h
      exact absurd h (by simp)
    · rw [hti] at h
      exact absurd h (by simp)

/-- Claim C4, witness: the amended theorem at a concrete name-only read whose
success payload echoes the resolved tag's canonical name and id. -/
theorem C4_witness :
    ({ device_name := "PLC1", tag_name := "Temp", tag_id := some "t1",
       data := Value.str "42" } : ReadPayload).tag_name = tagTempT.tag_name ∧
    ({ device_name := "PLC1", tag_name := "Temp", tag_id := some "t1",
       data := Value.str "42" } : ReadPayload).tag_id = tagTempT.id :=
  C4_read_enrichment [devPLC1] (fun _ => Except.ok [tagTempT])
    (fun _ => Except.ok (.str "42"))
    { device_name := some "PLC1", tag_name := some "Temp" }
    "PLC1" devPLC1 [tagTempT] tagTempT
    { device_name := "PLC1", tag_name := "Temp", tag_id := some "t1",
      data := Value.str "42" }
    (by decide) (by decide) rfl (by decide) (Or.inr (by decide)) (by decide)

/-- Tag whose raw record has no device-name attribute. -/
def tagNoDev : RawTag := { tag_name := "Orphan", id := some "o1" }

/-- Claim C5, counterexample: filtering the global tag listing by device
name `A` still returns the tag whose own device-name attribute is absent,
so the result is not exactly the tags whose device-name equals the filter. -/
theorem C5_counterexample :
    list_all_devicehub_tags (Except.ok [tagNoDev]) { device_name := some "A" } =
      Outcome.success { count := 1,
                        tags := [[("tag_name", Value.str "Orphan"),
                                  ("id", Value.str "o1")]],
                        by_device := [("unknown", 1)],
                        filters_applied := some "A" } ∧
    tagNoDev.device_name ≠ some "A" := by
  constructor
  · simp [list_all_devicehub_tags, truthyStr, keepTag, tagNoDev, buildTagGlobal,
      dropNone, bumpStr]
  · simp [tagNoDev]

/-- Claim C5, amended: for a non-empty device-name filter, the global tag
listing returns (a sorted permutation of) the normalization of exactly those
tags whose own device-name attribute is absent, empty, or equal to the
filter value; the device collection is never consulted. A tag record with a
truthy device-name attribute different from the filter is the only kind
excluded. -/
theorem C5_list_all_tags_filter :
    (∀ (f : String) (t : RawTag),
      keepTag f t = true ↔
        (t.device_name = none ∨ t.device_name = some "" ∨
         t.device_name = some f)) ∧
    (∀ (ts : List RawTag) (f : String), f ≠ "" →
      ∃ p : AllTagsPayload,
        list_all_devicehub_tags (Except.ok ts) { device_name := some f } =
          Outcome.success p ∧
        p.tags.Perm ((ts.filter (keepTag f)).map buildTagGlobal) ∧
        p.count = (ts.filter (keepTag f)).length) := by
  constructor
  · intro f t
    cases hdn : t.device_name with
    | none => simp [keepTag, truthyStr, hdn]
    | some s =>
      by_cases hs : s = ""
      · subst hs
        simp [keepTag, truthyStr, hdn]
      · simp [keepTag, truthyStr, hdn, hs]
  · intro ts f hf
    have hfb : truthyStr (some f) = some f := by simp [truthyStr, hf]
    refine ⟨{ count := ((ts.filter (keepTag f)).map buildTagGlobal).mergeSort
                tagSortLe |>.length,
              tags := ((ts.filter (keepTag f)).map buildTagGlobal).mergeSort
                tagSortLe,
              by_device := (ts.filter (keepTag f)).foldl
                (fun acc t => bumpStr acc ((truthyStr t.device).getD "unknown")) [],
              filters_applied := some f }, ?_, ?_, ?_⟩
    · simp only [list_all_devicehub_tags, hfb]
    · exact List.mergeSort_perm _ _
    · simp [(List.mergeSort_perm ((ts.filter (keepTag f)).map buildTagGlobal)
        tagSortLe).length_eq]

/-- Tag owned (by name) by device `A`, for the global-listing witness. -/
def tagDevA : RawTag :=
  { tag_name := "T1", id := some "x1", device := some "dA",
    device_name := some "A" }

/-- Claim C5, witness: the amended theorem applied to a one-tag collection
and the non-empty filter `A`. -/
theorem C5_witness :
    ∃ p : AllTagsPayload,
      list_all_devicehub_tags (Except.ok [tagDevA]) { device_name := some "A" } =
        Outcome.success p ∧
      p.tags.Perm (([tagDevA].filter (keepTag "A")).map buildTagGlobal) ∧
      p.count = ([tagDevA].filter (keepTag "A")).length :=
  C5_list_all_tags_filter.2 [tagDevA] "A" (by decide)

/-- Tag whose only Output topic carries an empty topic identifier. -/
def tagEmptyTopic : RawTag :=
  { tag_name := "Temp", id := some "t1",
    topics := [{ topic := "", direction := "Output" }] }

/-- Claim C6, counterexample: the tag has a Topic with direction Output, yet
the read operation raises the missing-output-topic internal error instead of
performing the live-value lookup with that topic, because the topic
identifier is empty and therefore falsy. -/
theorem C6_counterexample :
    (tagEmptyTopic.topics.find? (fun tp => tp.direction == "Output")).isSome = true ∧
    get_current_value_of_devicehub_tag (Except.ok [devPLC1])
      (fun _ => Except.ok [tagEmptyTopic]) (fun _ => Except.ok (.str "42"))
      { device_name := some "PLC1", tag_name := some "Temp" } =
      Outcome.raisedMcp .internalError "No output topic found for tag name Temp" :=
  ⟨by decide, by decide⟩

/-- Claim C6, amended: a resolved tag with no Output-direction topic fails
with the internal-error classification (not a validation error); when the
first Output topic exists and its identifier is non-empty, that identifier
is used for the live-value lookup (the gateway's failure or value determines
the outcome); a first Output topic with an empty identifier is treated like
the missing-topic case and also raises the internal error. -/
theorem C6_output_topic_required :
    ∀ (dl : List RawDevice) (gwTagsOf : RawDevice → Except String (List RawTag))
      (gwTopicValue : String → Except String Value) (args : ReadArgs)
      (dn : String) (dev : RawDevice) (tl : List RawTag) (t : RawTag),
      truthyStr args.device_name = some dn →
      find_device_by_name dl dn = some dev →
      gwTagsOf dev = Except.ok tl →
      resolveTagSingle tl (truthyStr args.tag_name) (truthyStr args.tag_id) = some t →
      ¬(truthyStr args.tag_name = none ∧ truthyStr args.tag_id = none) →
      ((t.topics.find? (fun tp => tp.direction == "Output") = none →
        get_current_value_of_devicehub_tag (Except.ok dl) gwTagsOf gwTopicValue
          args = Outcome.raisedMcp .internalError
            ("No output topic found for tag " ++
             readIdentifier (truthyStr args.tag_name) (truthyStr args.tag_id))) ∧
       (firstOutputTopic t = some "" →
        get_current_value_of_devicehub_tag (Except.ok dl) gwTagsOf gwTopicValue
          args = Outcome.raisedMcp .internalError
            ("No output topic found for tag " ++
             readIdentifier (truthyStr args.tag_name) (truthyStr args.tag_id))) ∧
       (∀ tp : String, firstOutputTopic t = some tp → tp ≠ "" →
        (∀ m, gwTopicValue tp = Except.error m →
          get_current_value_of_devicehub_tag (Except.ok dl) gwTagsOf gwTopicValue
            args = Outcome.envelope "read_failed" m) ∧
        (∀ v, gwTopicValue tp = Except.ok v →
          get_current_value_of_devicehub_tag (Except.ok dl) gwTagsOf gwTopicValue
            args = Outcome.success
              (mkReadPayload dn (truthyStr args.tag_name) (truthyStr args.tag_id)
                t v) ∧
          (mkReadPayload dn (truthyStr args.tag_name) (truthyStr args.tag_id)
            t v).data = v))) := by
  intro dl gwTagsOf gwTopicValue args dn dev tl t hdn hdev htl hres hid
  refine ⟨?_, ?_, ?_⟩
  · intro hfind
    have htop : truthyStr (firstOutputTopic t) = none := by
      simp [firstOutputTopic, hfind, truthyStr]
    simp only [get_current_value_of_devicehub_tag, hdn, hdev, htl, hres, htop]
    rw [if_neg hid]
  · intro hfind
    have htop : truthyStr (firstOutputTopic t) = none := by
      simp [hfind, truthyStr]
    simp only [get_current_value_of_devicehub_tag, hdn, hdev, htl, hres, htop]
    rw [if_neg hid]
  · intro tp hfind htp
    have htop : truthyStr (firstOutputTopic t) = some tp := by
      simp [hfind, truthyStr, htp]
    constructor
    · intro m hm
      simp only [get_current_value_of_devicehub_tag, hdn, hdev, htl, hres, htop, hm]
      rw [if_neg hid]
    · intro v hv
      refine ⟨?_, rfl⟩
      simp only [get_current_value_of_devicehub_tag, hdn, hdev, htl, hres, htop, hv]
      rw [if_neg hid]

/-- Claim C6, witness: the amended theorem applied to a tag whose first
Output topic has the non-empty identifier `topicT`; the live value returned
by the gateway for that topic appears as the payload data. -/
theorem C6_witness :
    get_current_value_of_devicehub_tag (Except.ok [devPLC1])
      (fun _ => Except.ok [tagTempT]) (fun _ => Except.ok (.str "42"))
      { device_name := some "PLC1", tag_name := some "Temp" } =
      Outcome.success (mkReadPayload "PLC1" (some "Temp") none tagTempT
        (.str "42")) ∧
    (mkReadPayload "PLC1" (some "Temp") none tagTempT (.str "42")).data =
      .str "42" :=
  ((C6_output_topic_required [devPLC1] (fun _ => Except.ok [tagTempT])
      (fun _ => Except.ok (.str "42"))
      { device_name := some "PLC1", tag_name := some "Temp" }
      "PLC1" devPLC1 [tagTempT] tagTempT
      (by decide) (by decide) rfl (by decide)
      (by decide)).2.2 "topicT" (by decide) (by decide)).2 (.str "42") rfl

/-- Device with driver `X` and no other attributes, for the listing claims. -/
def devX : RawDevice := { name := "DevX", driver := some (.str "X"),
                          metadata := .null }

/-- Claim C7, counterexample: supplying the (empty-string) filter value `""`
disables filtering entirely, so the returned list contains a device whose
normalized driver field does not equal the supplied filter value. -/
theorem C7_counterexample :
    get_devicehub_devices (Except.ok [devX]) { filter_by_driver := some "" } =
      Outcome.success { count := 1,
                        devices := [[("name", Value.str "DevX"),
                                     ("driver", Value.str "X")]],
                        by_driver := [(Value.str "X", 1)],
                        filters_applied := none } ∧
    (build_device_info devX).lookup "driver" ≠ some (Value.str "") := by
  constructor
  · simp [get_devicehub_devices, truthyStr, build_device_info, dropNone, devX,
      create_device_summary, bump, RawAttr.getattrUnknown, List.lookup]
  · decide

/-- Claim C7, amended: the device listing output is always sorted ascending
by name, and for every non-empty driver filter it is a permutation of the
normalization of exactly those devices whose normalized driver field equals
the filter value (none omitted or duplicated); an empty-string filter value
is falsy and applies no filtering. -/
theorem C7_list_devices_sorted_filtered :
    (∀ (dl : List RawDevice) (args : DevicesArgs) (p : DevicesPayload),
      get_devicehub_devices (Except.ok dl) args = Outcome.success p →
      List.Pairwise (fun a b => infoNameLe a b = true) p.devices) ∧
    (∀ (dl : List RawDevice) (f : String), f ≠ "" →
      ∃ p : DevicesPayload,
        get_devicehub_devices (Except.ok dl) { filter_by_driver := some f } =
          Outcome.success p ∧
        p.devices.Perm ((dl.map build_device_info).filter
          (fun info => info.lookup "driver" == some (.str f))) ∧
        p.count = ((dl.map build_device_info).filter
          (fun info => info.lookup "driver" == some (.str f))).length) := by
  have htrans : ∀ a b c : List (String × Value),
      infoNameLe a b → infoNameLe b c → infoNameLe a c := by
    intro a b c hab hbc
    simp only [infoNameLe, decide_eq_true_eq] at hab hbc ⊢
    exact le_trans hab hbc
  have htotal : ∀ a b : List (String × Value), infoNameLe a b || infoNameLe b a := by
    intro a b
    simp only [infoNameLe]
    rcases le_total (infoName a) (infoName b) with h | h <;> simp [h]
  constructor
  · intro dl args p hsucc
    simp only [get_devicehub_devices] at hsucc
    injection hsucc with h
    subst h
    exact List.sorted_mergeSort htrans htotal _
  · intro dl f hf
    have hfb : truthyStr (some f) = some f := by simp [truthyStr, hf]
    refine ⟨{ count := ((dl.map build_device_info).filter
                (fun info => info.lookup "driver" == some (.str f))).mergeSort
                infoNameLe |>.length,
              devices := ((dl.map build_device_info).filter
                (fun info => info.lookup "driver" == some (.str f))).mergeSort
                infoNameLe,
              by_driver := create_device_summary
                (((dl.map build_device_info).filter
                  (fun info => info.lookup "driver" == some (.str f))).mergeSort
                  infoNameLe),
              filters_applied := some f }, ?_, ?_, ?_⟩
    · simp only [get_devicehub_devices, hfb]
    · exact List.mergeSort_perm _ _
    · simp [(List.mergeSort_perm ((dl.map build_device_info).filter
        (fun info => info.lookup "driver" == some (.str f))) infoNameLe).length_eq]

/-- Claim C7, witness: the amended theorem applied to a one-device collection
and the non-empty driver filter `X`. -/
theorem C7_witness :
    ∃ p : DevicesPayload,
      get_devicehub_devices (Except.ok [devX]) { filter_by_driver := some "X" } =
        Outcome.success p ∧
      p.devices.Perm (([devX].map build_device_info).filter
        (fun info => info.lookup "driver" == some (.str "X"))) ∧
      p.count = (([devX].map build_device_info).filter
        (fun info => info.lookup "driver" == some (.str "X"))).length :=
  C7_list_devices_sorted_filtered.2 [devX] "X" (by decide)

/-- Override the echoed `tag_id` of a successful read outcome. Used to state
that supplying an id alongside a name changes nothing but that echo. -/
def setTagId (o : Outcome ReadPayload) (i : String) : Outcome ReadPayload :=
  match o with
  | .success p => .success { p with tag_id := some i }
  | o => o

/-- Claim C8: when both a (truthy) tag name and a tag id are supplied, the
read operation does not reject the request: resolution uses the name only,
and the whole operation behaves exactly as the name-only request except that
the success payload echoes the supplied id. -/
theorem C8_both_identifiers_prefer_name :
    (∀ (tl : List RawTag) (n i : String),
      resolveTagSingle tl (some n) (some i) =
        tl.find? (fun t => t.tag_name == n)) ∧
    (∀ (dl : List RawDevice) (gwTagsOf : RawDevice → Except String (List RawTag))
       (gwTopicValue : String → Except String Value) (args : ReadArgs)
       (n i : String),
      truthyStr args.tag_name = some n →
      truthyStr args.tag_id = some i →
      get_current_value_of_devicehub_tag (Except.ok dl) gwTagsOf gwTopicValue
        args =
      setTagId (get_current_value_of_devicehub_tag (Except.ok dl) gwTagsOf
        gwTopicValue { args with tag_id := none }) i) := by
  constructor
  · intro tl n i
    simp [resolveTagSingle]
  · intro dl gwTagsOf gwTopicValue args n i htn hti
    obtain ⟨adn, atn, ati⟩ := args
    simp only at htn hti
    have h0 : truthyStr none = none := rfl
    rcases hdn : truthyStr adn with _ | dn
    · simp [get_current_value_of_devicehub_tag, hdn, setTagId]
    · rcases hfind : find_device_by_name dl dn with _ | dev
      · simp [get_current_value_of_devicehub_tag, hdn, htn, hti, h0, hfind,
          setTagId]
      · rcases htl : gwTagsOf dev with m | tl
        · simp [get_current_value_of_devicehub_tag, hdn, htn, hti, h0, hfind,
            htl, setTagId]
        · rcases hres : tl.find? (fun t => t.tag_name == n) with _ | t
          · simp [get_current_value_of_devicehub_tag, hdn, htn, hti, h0, hfind,
              htl, resolveTagSingle, readIdentifier, hres, setTagId]
          · rcases htp : truthyStr (firstOutputTopic t) with _ | tp
            · simp [get_current_value_of_devicehub_tag, hdn, htn, hti, h0, hfind,
                htl, resolveTagSingle, readIdentifier, hres, htp, setTagId]
            · rcases hval : gwTopicValue tp with m | v
              · simp [get_current_value_of_devicehub_tag, hdn, htn, hti, h0,
                  hfind, htl, resolveTagSingle, readIdentifier, hres, htp, hval,
                  setTagId]
              · simp [get_current_value_of_devicehub_tag, hdn, htn, hti, h0,
                  hfind, htl, resolveTagSingle, readIdentifier, hres, htp, hval,
                  setTagId, mkReadPayload]

/-- Claim C8, witness: on the two-tag device, supplying both `tag_name = Temp`
and `tag_id = t2` gives exactly the name-only outcome with the echoed id
overridden. -/
theorem C8_witness :
    get_current_value_of_devicehub_tag (Except.ok [devPLC1])
      (fun _ => Except.ok [tagTempT, tagPres]) (fun _ => Except.ok (.str "42"))
      { device_name := some "PLC1", tag_name := some "Temp",
        tag_id := some "t2" } =
    setTagId (get_current_value_of_devicehub_tag (Except.ok [devPLC1])
      (fun _ => Except.ok [tagTempT, tagPres]) (fun _ => Except.ok (.str "42"))
      { device_name := some "PLC1", tag_name := some "Temp",
        tag_id := none }) "t2" :=
  C8_both_identifiers_prefer_name.2 [devPLC1]
    (fun _ => Except.ok [tagTempT, tagPres]) (fun _ => Except.ok (.str "42"))
    { device_name := some "PLC1", tag_name := some "Temp", tag_id := some "t2" }
    "Temp" "t2" (by decide) (by decide)

/-- Claim C9: exception boundary. The driver listing converts every gateway
failure into the uniform error envelope with its reason code and otherwise
succeeds; the delete operation always returns a success envelope, the
uniform error envelope carrying its reason code, or one of its own
deliberately raised validation errors with the invalid-parameters
classification preserved — no other exception shape reaches the caller. -/
theorem C9_exception_boundary :
    (∀ gwDrivers : Except String (List RawDriver),
      (∀ m, gwDrivers = Except.error m →
        get_litmusedge_driver_list gwDrivers =
          Outcome.envelope "retrieval_failed" m) ∧
      (∀ dl, gwDrivers = Except.ok dl →
        ∃ p, get_litmusedge_driver_list gwDrivers = Outcome.success p)) ∧
    (∀ (gwDevices : Except String (List RawDevice))
       (gwTagsOf : RawDevice → Except String (List RawTag))
       (gwDeleteOne : RawTag → Except String Unit)
       (gwDeleteMany : List RawTag → Except String Unit) (args : DeleteArgs),
      (∃ p, (delete_devicehub_tag gwDevices gwTagsOf gwDeleteOne gwDeleteMany
        args).1 = Outcome.success p) ∨
      (∃ m, (delete_devicehub_tag gwDevices gwTagsOf gwDeleteOne gwDeleteMany
        args).1 = Outcome.envelope "deletion_failed" m) ∨
      (delete_devicehub_tag gwDevices gwTagsOf gwDeleteOne gwDeleteMany
        args).1 = Outcome.raisedMcp .invalidParams
          "device_name parameter is required" ∨
      (delete_devicehub_tag gwDevices gwTagsOf gwDeleteOne gwDeleteMany
        args).1 = Outcome.raisedMcp .invalidParams
          "Either tag_name, tag_id, or tag_ids is required" ∨
      (∃ dn, (delete_devicehub_tag gwDevices gwTagsOf gwDeleteOne gwDeleteMany
        args).1 = Outcome.raisedMcp .invalidParams
          ("Device " ++ dn ++
           " not found. Use get_devicehub_devices to see available devices.")) ∨
      (delete_devicehub_tag gwDevices gwTagsOf gwDeleteOne gwDeleteMany
        args).1 = Outcome.raisedMcp .invalidParams
          "No matching tags found to delete") := by
  constructor
  · intro gwDrivers
    constructor
    · intro m hm
      subst hm
      rfl
    · intro dl hdl
      subst hdl
      exact ⟨_, rfl⟩
  · intro gwDevices gwTagsOf gwDeleteOne gwDeleteMany args
    rcases hdn : truthyStr args.device_name with _ | dn
    · refine Or.inr (Or.inr (Or.inl ?_))
      simp only [delete_devicehub_tag, hdn]
    · by_cases hreq : truthyStr args.tag_name = none ∧
        truthyStr args.tag_id = none ∧ args.tag_ids = []
      · refine Or.inr (Or.inr (Or.inr (Or.inl ?_)))
        simp only [delete_devicehub_tag, hdn, if_pos hreq]
      · rcases hgw : gwDevices with m | dl
        · refine Or.inr (Or.inl ⟨m, ?_⟩)
          simp only [delete_devicehub_tag, hdn, if_neg hreq, hgw]
        · rcases hfind : find_device_by_name dl dn with _ | dev
          · refine Or.inr (Or.inr (Or.inr (Or.inr (Or.inl ⟨dn, ?_⟩))))
            simp only [delete_devicehub_tag, hdn, if_neg hreq, hgw, hfind]
          · rcases htl : gwTagsOf dev with m | tl
            · refine Or.inr (Or.inl ⟨m, ?_⟩)
              simp only [delete_devicehub_tag, hdn, if_neg hreq, hgw, hfind, htl]
            · rcases hres : resolveTagsForDelete tl (truthyStr args.tag_name)
                (truthyStr args.tag_id) args.tag_ids with _ | ⟨t, ts⟩
              · refine Or.inr (Or.inr (Or.inr (Or.inr (Or.inr ?_))))
                simp only [delete_devicehub_tag, hdn, if_neg hreq, hgw, hfind,
                  htl, hres]
              · cases ts with
                | nil =>
                  rcases hdel : gwDeleteOne t with m | u
                  · refine Or.inr (Or.inl ⟨m, ?_⟩)
                    simp only [delete_devicehub_tag, hdn, if_neg hreq, hgw,
                      hfind, htl, hres, hdel]
                  · have hop : (delete_devicehub_tag (Except.ok dl) gwTagsOf
                        gwDeleteOne gwDeleteMany args).1 =
                        Outcome.success { device_name := dn, deleted_count := 1,
                                          deleted_tags := [t.tag_name] } := by
                      simp only [delete_devicehub_tag, hdn, if_neg hreq,
                        hfind, htl, hres, hdel]
                    exact Or.inl ⟨_, hop⟩
                | cons t2 rest =>
                  rcases hdel : gwDeleteMany (t :: t2 :: rest) with m | u
                  · refine Or.inr (Or.inl ⟨m, ?_⟩)
                    simp only [delete_devicehub_tag, hdn, if_neg hreq, hgw,
                      hfind, htl, hres, hdel]
                  · have hop : (delete_devicehub_tag (Except.ok dl) gwTagsOf
                        gwDeleteOne gwDeleteMany args).1 =
                        Outcome.success
                          { device_name := dn,
                            deleted_count := (t :: t2 :: rest).length,
                            deleted_tags := (t :: t2 :: rest).map
                              RawTag.tag_name } := by
                      simp only [delete_devicehub_tag, hdn, if_neg hreq,
                        hfind, htl, hres, hdel]
                    exact Or.inl ⟨_, hop⟩

/-- Claim C9, witness: a gateway failure in the driver listing is converted
to the uniform envelope with the retrieval reason code and the exception
message. -/
theorem C9_witness :
    get_litmusedge_driver_list (Except.error "boom") =
      Outcome.envelope "retrieval_failed" "boom" :=
  (C9_exception_boundary.1 (Except.error "boom")).1 "boom" rfl

/-- Claim C10: mutation atomicity on validation failure. Whenever createTag,
updateTag or deleteTag ends in a deliberately raised validation
(invalid-parameters) error — a missing required parameter, an unresolvable
device name, or an unresolvable tag identifier — no remote create, update or
delete call has been issued. -/
theorem C10_no_mutation_on_validation_failure :
    (∀ (gwDevices : Except String (List RawDevice))
       (gwCreate : List RawTag → Except String (List RawTag))
       (args : CreateArgs) (m : String),
      (create_devicehub_tag gwDevices gwCreate args).1 =
        Outcome.raisedMcp .invalidParams m →
      (create_devicehub_tag gwDevices gwCreate args).2 = []) ∧
    (∀ (gwDevices : Except String (List RawDevice))
       (gwTagsOf : RawDevice → Except String (List RawTag))
       (gwUpdate : List RawTag → Except String (List RawTag))
       (args : UpdateArgs) (m : String),
      (update_devicehub_tag gwDevices gwTagsOf gwUpdate args).1 =
        Outcome.raisedMcp .invalidParams m →
      (update_devicehub_tag gwDevices gwTagsOf gwUpdate args).2 = []) ∧
    (∀ (gwDevices : Except String (List RawDevice))
       (gwTagsOf : RawDevice → Except String (List RawTag))
       (gwDeleteOne : RawTag → Except String Unit)
       (gwDeleteMany : List RawTag → Except String Unit)
       (args : DeleteArgs) (m : String),
      (delete_devicehub_tag gwDevices gwTagsOf gwDeleteOne gwDeleteMany
        args).1 = Outcome.raisedMcp .invalidParams m →
      (delete_devicehub_tag gwDevices gwTagsOf gwDeleteOne gwDeleteMany
        args).2 = []) := by
  refine ⟨?_, ?_, ?_⟩
  · intro gwDevices gwCreate args m h
    rcases hdn : truthyStr args.device_name with _ | dn
    · simp [create_devicehub_tag, hdn]
    · rcases htn : truthyStr args.tag_name with _ | tn
      · simp [create_devicehub_tag, hdn, htn]
      · rcases hvt : truthyStr args.value_type with _ | vt
        · simp [create_devicehub_tag, hdn, htn, hvt]
        · rcases hgw : gwDevices with gm | dl
          · simp [create_devicehub_tag, hdn, htn, hvt, hgw]
          · rcases hfind : find_device_by_name dl dn with _ | dev
            · simp [create_devicehub_tag, hdn, htn, hvt, hgw, hfind]
            · rcases hc : gwCreate [mkNewTag dev tn vt
                  (args.description.getD (.str ""))
                  (args.properties.getD (.list []))
                  (args.publish_cov.getD (.bool false))] with gm | cl
              · simp [create_devicehub_tag, hdn, htn, hvt, hgw, hfind, hc] at h
              · cases cl with
                | nil =>
                  simp [create_devicehub_tag, hdn, htn, hvt, hgw, hfind, hc] at h
                | cons c rest =>
                  simp [create_devicehub_tag, hdn, htn, hvt, hgw, hfind, hc] at h
  · intro gwDevices gwTagsOf gwUpdate args m h
    rcases hdn : truthyStr args.device_name with _ | dn
    · simp [update_devicehub_tag, hdn]
    · rcases hti : truthyStr args.tag_id with _ | tid
      · simp [update_devicehub_tag, hdn, hti]
      · rcases hgw : gwDevices with gm | dl
        · simp [update_devicehub_tag, hdn, hti, hgw]
        · rcases hfind : find_device_by_name dl dn with _ | dev
          · simp [update_devicehub_tag, hdn, hti, hgw, hfind]
          · rcases htl : gwTagsOf dev with gm | tl
            · simp [update_devicehub_tag, hdn, hti, hgw, hfind, htl]
            · rcases hex : tl.find? (fun t => t.id == some tid) with _ | existing
              · simp [update_devicehub_tag, hdn, hti, hgw, hfind, htl, hex]
              · rcases hu : gwUpdate [applyUpdate args existing] with gm | cl
                · simp [update_devicehub_tag, hdn, hti, hgw, hfind, htl, hex,
                    hu] at h
                · cases cl with
                  | nil =>
                    simp [update_devicehub_tag, hdn, hti, hgw, hfind, htl, hex,
                      hu] at h
                  | cons c rest =>
                    simp [update_devicehub_tag, hdn, hti, hgw, hfind, htl, hex,
                      hu] at h
  · intro gwDevices gwTagsOf gwDeleteOne gwDeleteMany args m h
    rcases hdn : truthyStr args.device_name with _ | dn
    · simp [delete_devicehub_tag, hdn]
    · by_cases hreq : truthyStr args.tag_name = none ∧
        truthyStr args.tag_id = none ∧ args.tag_ids = []
      · simp [delete_devicehub_tag, hdn, if_pos hreq]
      · rcases hgw : gwDevices with gm | dl
        · simp [delete_devicehub_tag, hdn, if_neg hreq, hgw]
        · rcases hfind : find_device_by_name dl dn with _ | dev
          · simp [delete_devicehub_tag, hdn, if_neg hreq, hgw, hfind]
          · rcases htl : gwTagsOf dev with gm | tl
            · simp [delete_devicehub_tag, hdn, if_neg hreq, hgw, hfind, htl]
            · rcases hres : resolveTagsForDelete tl (truthyStr args.tag_name)
                  (truthyStr args.tag_id) args.tag_ids with _ | ⟨t, ts⟩
              · simp [delete_devicehub_tag, hdn, if_neg hreq, hgw, hfind, htl,
                  hres]
              · cases ts with
                | nil =>
                  rcases hdel : gwDeleteOne t with gm | u <;>
                    simp [delete_devicehub_tag, hdn, if_neg hreq, hgw, hfind,
                      htl, hres, hdel] at h
                | cons t2 rest =>
                  rcases hdel : gwDeleteMany (t :: t2 :: rest) with gm | u <;>
                    simp [delete_devicehub_tag, hdn, if_neg hreq, hgw, hfind,
                      htl, hres, hdel] at h

/-- Claim C10, witness: a delete request with no arguments fails validation
and issues no remote call. -/
theorem C10_witness :
    (delete_devicehub_tag (Except.ok [devPLC1]) (fun _ => Except.ok [tagA])
      (fun _ => Except.ok ()) (fun _ => Except.ok ()) {}).2 = [] :=
  C10_no_mutation_on_validation_failure.2.2 (Except.ok [devPLC1])
    (fun _ => Except.ok [tagA]) (fun _ => Except.ok ()) (fun _ => Except.ok ())
    {} "device_name parameter is required" (by decide)
